import Mathlib

set_option maxRecDepth 8000

/-!
Shallow embedding of the backend in `src/main.py`: the rule-based text
improvement routine `basic_improve`, the `/api/tutor` response composition,
and the `/test` diagnostic endpoint.  Strings are modelled as Lean `String`
(a list of unicode scalar values), with the Python string operations the
code uses (`strip`, `lower`, `upper`, `replace`, `in`, `startswith`,
`endswith`, slicing) written out explicitly over `List Char`.  Case mapping
is ASCII, which agrees with Python on all text appearing in the program and
its spec.
-/

/-- Python `str.strip()` whitespace predicate, restricted to the ASCII
whitespace characters. -/
def isPySpace (c : Char) : Bool :=
  c = ' ' || c = '\t' || c = '\n' || c = '\x0d' || c = '\x0b' || c = '\x0c'

/-- Python `str.strip()`: drop leading and trailing whitespace. -/
def pyStrip (l : List Char) : List Char :=
  ((l.dropWhile isPySpace).reverse.dropWhile isPySpace).reverse

/-- Python `s.replace(wrong, right)` (all non-overlapping occurrences,
scanned left to right), written with a fuel argument so that it is
structurally recursive; `replaceL` below supplies fuel `s.length`, which is
enough whenever `wrong` is non-empty (every key of `COMMON_CORRECTIONS`
is). -/
def replaceFuel (wrong right : List Char) : Nat → List Char → List Char
  | _, [] => []
  | 0, c :: cs => c :: cs
  | fuel + 1, c :: cs =>
    if List.isPrefixOf wrong (c :: cs) then
      right ++ replaceFuel wrong right fuel (List.drop (wrong.length - 1) cs)
    else
      c :: replaceFuel wrong right fuel cs

/-- Python `s.replace(wrong, right)` for a non-empty pattern `wrong`. -/
def replaceL (wrong right s : List Char) : List Char :=
  replaceFuel wrong right s.length s

/-- Python `improved[0].upper() + improved[1:]` (line 73 of `main.py`),
guarded by non-emptiness as in line 72. -/
def capFirst : List Char → List Char
  | [] => []
  | c :: cs => Char.toUpper c :: cs

/-- Membership of a character in the Python string `".?!"` (line 76). -/
def isTermPunct (c : Char) : Bool :=
  c = '.' || c = '?' || c = '!'

/-- Whether `improved[-1]` exists and lies in `".?!"`. -/
def lastTerm (l : List Char) : Bool :=
  match l.getLast? with
  | some c => isTermPunct c
  | none => false

/-- Python substring membership `wrong in improved` (line 67): some suffix
of the text has `wrong` as a prefix. -/
def containsSub (wrong : List Char) : List Char → Bool
  | [] => List.isPrefixOf wrong []
  | c :: cs => List.isPrefixOf wrong (c :: cs) || containsSub wrong cs

/-- The suggestion format string of line 69:
`f"Consider using '{right}' instead of '{wrong}'."`. -/
def corrMsg (wrong right : List Char) : String :=
  "Consider using '" ++ String.mk right ++ "' instead of '" ++ String.mk wrong ++ "'."

/-- The `COMMON_CORRECTIONS` dict of lines 29-46, in its insertion
(= iteration) order. -/
def COMMON_CORRECTIONS : List (List Char × List Char) :=
  [("i am", "I am"), ("i", "I"), ("dont", "don't"), ("doesnt", "doesn't"),
   ("cant", "can't"), ("wont", "won't"), ("im", "I'm"), ("u", "you"),
   ("ur", "your"), ("r", "are"), ("there english", "their English"),
   ("there are", "there are"), ("they is", "they are"), ("he have", "he has"),
   ("she have", "she has"), ("i has", "I have")].map
    (fun pr => (pr.1.data, pr.2.data))

/-- The `for wrong, right in COMMON_CORRECTIONS.items()` loop of lines
66-69: substring test, replace-all, and suggestion accumulation. -/
def runCorrections :
    List (List Char × List Char) → List Char → List String → List Char × List String
  | [], improved, suggs => (improved, suggs)
  | (wrong, right) :: rest, improved, suggs =>
    if containsSub wrong improved then
      runCorrections rest (replaceL wrong right improved) (suggs ++ [corrMsg wrong right])
    else
      runCorrections rest improved suggs

/-- The interrogative lead words of line 80. -/
def QUESTION_STARTERS : List (List Char) :=
  ["what", "why", "how", "where", "when", "who", "which",
   "do ", "does ", "is ", "are ", "can ", "could ", "would "].map String.data

/-- `any(improved.lower().startswith(q) for q in [...])` applied to an
already lowercased character list. -/
def startsWithAny (l : List Char) : Bool :=
  QUESTION_STARTERS.any (fun q => List.isPrefixOf q l)

/-- Lines 76-77: append `'.'` when the non-empty text does not already end
in terminal punctuation. -/
def addPeriod (l : List Char) : List Char :=
  if l ≠ [] ∧ lastTerm l = false then l ++ ['.'] else l

/-- Lines 80-82: when the lowercased text starts with an interrogative lead
word and ends with `'.'`, replace that final period by `'?'`. -/
def questionize (l : List Char) : List Char :=
  if startsWithAny (l.map Char.toLower) = true ∧ l.getLast? = some '.' then
    l.dropLast ++ ['?']
  else
    l

/-- The encouraging suggestion of line 86. -/
def goodJob : String :=
  "Great job! Your sentence looks good. Try to add more detail."

/-- `basic_improve` of lines 56-88: strip, lowercase, dictionary pass,
capitalization, terminal period, interrogative question mark, and the
no-changes encouragement. -/
def basic_improve (text : String) : String × List String :=
  let original := pyStrip text.data
  let lowered := original.map Char.toLower
  let res := runCorrections COMMON_CORRECTIONS lowered []
  let i4 := questionize (addPeriod (capFirst res.1))
  let suggs := if i4 = original then res.2 ++ [goodJob] else res.2
  (String.mk i4, suggs)

/-- The `TutorResponse` model of lines 23-26. -/
structure TutorResponse where
  reply : String
  suggestions : List String
  prompt : Option String
deriving DecidableEq

/-- The `END_PROMPTS` list of lines 48-53. -/
def END_PROMPTS : List String :=
  ["Tell me about your day in three sentences.",
   "Describe your favorite teacher and why you like them.",
   "What is your hobby? Explain it like you are teaching a friend.",
   "Make a short plan for tomorrow using future tense."]

/-- The `/api/tutor` handler of lines 143-182, parametrised over the
improvement function (so that non-invocation on empty input is statable)
and over a natural number `k` standing for the random draw of
`random.choice(END_PROMPTS)` (line 176), modelled as picking index
`k % len(END_PROMPTS)`.  `level` is `req.level` after validation; the
pydantic default fills in `some "beginner"` when the field is absent. -/
def tutorWith (improve : String → String × List String)
    (message : String) (level : Option String) (k : Nat) : TutorResponse :=
  let user_text := String.mk (pyStrip message.data)
  if user_text = "" then
    { reply := "I didn't hear anything. Try saying a simple sentence about your day.",
      suggestions := ["Speak slowly and clearly.", "Start with: 'Today I ...'"],
      prompt := some "Say: 'Today I woke up early and ...'" }
  else
    let res := improve user_text
    let reply :=
      if level = some "beginner" then
        "You said: '" ++ user_text ++ "'. Here is a clearer version: '" ++ res.1 ++
          "'. Well done! Try to use full sentences and simple tenses."
      else if level = some "advanced" then
        "Your idea is good. A more natural phrasing is: '" ++ res.1 ++
          "'. Consider adding specific details and varied vocabulary."
      else
        "Nice! You can say: '" ++ res.1 ++
          "'. Keep practicing your rhythm and pronunciation."
    { reply := reply,
      suggestions :=
        if res.2 = [] then ["Great effort! Add one more sentence to continue."] else res.2,
      prompt := some (END_PROMPTS.getD (k % END_PROMPTS.length) "") }

/-- The `/api/tutor` handler with the improvement function of the source,
`basic_improve`. -/
def tutor (message : String) (level : Option String) (k : Nat) : TutorResponse :=
  tutorWith basic_improve message level k

/-- A trivial alternative improvement function, used only to witness that
the empty-message path never consults the improvement function. -/
def idImprove : String → String × List String :=
  fun s => (s, [])

/-- The optional `db` handle exposed by the external `database` module
(absent from the repository): an optional `name` attribute (line 119 uses
`hasattr(db, 'name')`) and the outcome of calling
`db.list_collection_names()` (line 123), which either returns names or
raises with message `e`. -/
structure DbHandle where
  name : Option String
  list_collection_names : Except String (List String)

/-- Outcome of `from database import db` (line 114): `ImportError`, any
other exception (with its message), or success with an optional handle. -/
inductive DbImport where
  | importErr : DbImport
  | otherErr : String → DbImport
  | ok : Option DbHandle → DbImport

/-- The response dictionary assembled by the `/test` handler
(lines 104-111).  `database_url` and `database_name` start out as `None`
(hence `Option String`) and are overwritten before returning. -/
structure TestResponse where
  backend : String
  database : String
  database_url : Option String
  database_name : Option String
  connection_status : String
  collections : List String
deriving DecidableEq

/-- Python slicing `s[:n]`. -/
def pyTake (s : String) (n : Nat) : String :=
  String.mk (s.data.take n)

/-- Python truthiness of an `os.getenv(...)` result (lines 137-138):
`None` (variable unset) and `""` (set to the empty string) are falsy,
every other string is truthy. -/
def pyTruthy : Option String → Bool
  | some s => !(s == "")
  | none => false

/-- The `/test` handler of lines 101-140, parametrised over the import
outcome and the two environment variables (`None` when unset). -/
def test_database (imp : DbImport) (envUrl envName : Option String) : TestResponse :=
  let r : TestResponse :=
    { backend := "✅ Running", database := "❌ Not Available",
      database_url := none, database_name := none,
      connection_status := "Not Connected", collections := [] }
  let r :=
    match imp with
    | DbImport.importErr =>
      { r with database := "❌ Database module not found (run enable-database first)" }
    | DbImport.otherErr e =>
      { r with database := "❌ Error: " ++ pyTake e 50 }
    | DbImport.ok none =>
      { r with database := "⚠️  Available but not initialized" }
    | DbImport.ok (some db) =>
      let r :=
        { r with database := "✅ Available", database_url := some "✅ Configured",
                 database_name := some (match db.name with
                                        | some n => n
                                        | none => "✅ Connected"),
                 connection_status := "Connected" }
      match db.list_collection_names with
      | Except.ok cols =>
        { r with collections := cols.take 10, database := "✅ Connected & Working" }
      | Except.error e =>
        { r with database := "⚠️  Connected but Error: " ++ pyTake e 50 }
  { r with
      database_url := some (if pyTruthy envUrl then "✅ Set" else "❌ Not Set"),
      database_name := some (if pyTruthy envName then "✅ Set" else "❌ Not Set") }

/-!
Helper lemmas.
-/

/-- `replaceFuel` never empties a non-empty text when the replacement is
non-empty. -/
theorem replaceFuel_ne_nil (wrong right : List Char) (fuel : Nat) (s : List Char)
    (hs : s ≠ []) (hr : right ≠ []) : replaceFuel wrong right fuel s ≠ [] := by
  cases s with
  | nil => exact absurd rfl hs
  | cons c cs =>
    cases fuel with
    | zero => simp [replaceFuel]
    | succ f =>
      by_cases h : List.isPrefixOf wrong (c :: cs) = true
      · simp [replaceFuel, h, hr]
      · simp [replaceFuel, h]

/-- `replaceL` never empties a non-empty text when the replacement is
non-empty. -/
theorem replaceL_ne_nil (wrong right s : List Char) (hs : s ≠ []) (hr : right ≠ []) :
    replaceL wrong right s ≠ [] :=
  replaceFuel_ne_nil wrong right s.length s hs hr

/-- The dictionary loop never empties a non-empty text when every
replacement value is non-empty. -/
theorem runCorrections_ne_nil (prs : List (List Char × List Char)) :
    ∀ improved suggs, improved ≠ [] → (∀ pr ∈ prs, pr.2 ≠ ([] : List Char)) →
      (runCorrections prs improved suggs).1 ≠ [] := by
  induction prs with
  | nil => intro improved suggs h _; simpa [runCorrections] using h
  | cons pr rest ih =>
    intro improved suggs h hall
    obtain ⟨wrong, right⟩ := pr
    have hr : right ≠ [] := hall (wrong, right) (List.mem_cons_self _ _)
    by_cases hin : containsSub wrong improved = true
    · simpa [runCorrections, hin] using
        ih _ _ (replaceL_ne_nil wrong right improved h hr)
          (fun q hq => hall q (List.mem_cons_of_mem _ hq))
    · simpa [runCorrections, hin] using
        ih _ _ h (fun q hq => hall q (List.mem_cons_of_mem _ hq))

/-- The dictionary loop is the identity when no key occurs in the text. -/
theorem runCorrections_no_match (prs : List (List Char × List Char)) :
    ∀ improved suggs, (∀ pr ∈ prs, containsSub pr.1 improved = false) →
      runCorrections prs improved suggs = (improved, suggs) := by
  induction prs with
  | nil => intro improved suggs _; rfl
  | cons pr rest ih =>
    intro improved suggs hall
    obtain ⟨wrong, right⟩ := pr
    have hw : containsSub wrong improved = false :=
      hall (wrong, right) (List.mem_cons_self _ _)
    simpa [runCorrections, hw] using
      ih improved suggs (fun q hq => hall q (List.mem_cons_of_mem _ hq))

/-- Capitalisation preserves non-emptiness. -/
theorem capFirst_ne_nil (l : List Char) (h : l ≠ []) : capFirst l ≠ [] := by
  cases l with
  | nil => exact absurd rfl h
  | cons c cs => simp [capFirst]

/-- The last element of a text with one character appended. -/
theorem lastTerm_concat (l : List Char) (c : Char) :
    lastTerm (l ++ [c]) = isTermPunct c := by
  simp [lastTerm, List.getLast?_concat]

/-- After the period step, a non-empty text is non-empty and ends in
terminal punctuation. -/
theorem addPeriod_spec (l : List Char) (h : l ≠ []) :
    addPeriod l ≠ [] ∧ lastTerm (addPeriod l) = true := by
  cases hlt : lastTerm l with
  | false =>
    have h1 : addPeriod l = l ++ ['.'] := by simp [addPeriod, h, hlt]
    refine ⟨by simp [h1], ?_⟩
    rw [h1, lastTerm_concat]
    rfl
  | true =>
    have h1 : addPeriod l = l := by simp [addPeriod, hlt]
    exact ⟨by rw [h1]; exact h, by rw [h1]; exact hlt⟩

/-- The question step preserves non-emptiness and terminal punctuation. -/
theorem questionize_spec (l : List Char) (h : l ≠ []) (hterm : lastTerm l = true) :
    questionize l ≠ [] ∧ lastTerm (questionize l) = true := by
  by_cases hc : startsWithAny (l.map Char.toLower) = true ∧ l.getLast? = some '.'
  · have h1 : questionize l = l.dropLast ++ ['?'] := by simp [questionize, hc.1, hc.2]
    refine ⟨by simp [h1], ?_⟩
    rw [h1, lastTerm_concat]
    rfl
  · have h1 : questionize l = l := by
      simp only [questionize, if_neg hc]
    exact ⟨by rw [h1]; exact h, by rw [h1]; exact hterm⟩

/-!
The claims.
-/

/-- C1: the spec's trace of `improve("what is your name")` is refuted by the
code: the dictionary pass does match keys (`i`, `u`, `ur`, `r` occur inside
`is` and `your`), so the result is not `"What is your name?"`. -/
theorem improve_what_cex :
    (basic_improve "what is your name").1 ≠ "What is your name?" := by decide

/-- C1 (amended): `basic_improve "what is your name"` cascades through the
substring-matching keys `i`, `u`, `ur`, `r`, then capitalises, appends a
period, and the interrogative lead word `what` turns it into a question
mark, giving `"What Is yoyoyouare name?"` with four correction
suggestions. -/
theorem improve_what_is_your_name :
    basic_improve "what is your name" =
      ("What Is yoyoyouare name?",
       ["Consider using 'I' instead of 'i'.",
        "Consider using 'you' instead of 'u'.",
        "Consider using 'your' instead of 'ur'.",
        "Consider using 'are' instead of 'r'."]) := by decide

/-- C2: two-pass convergence fails at input `"u"`: the second application
returns a non-empty suggestion list and a string that is neither the
first-pass output nor that output with one terminal punctuation mark
appended. -/
theorem improve_not_convergent :
    ¬ ((basic_improve (basic_improve "u").1).2 = [] ∧
       ((basic_improve (basic_improve "u").1).1 = (basic_improve "u").1 ∨
        (basic_improve (basic_improve "u").1).1 = (basic_improve "u").1 ++ "." ∨
        (basic_improve (basic_improve "u").1).1 = (basic_improve "u").1 ++ "?" ∨
        (basic_improve (basic_improve "u").1).1 = (basic_improve "u").1 ++ "!")) := by
  decide

/-- C2 (amended): applying `basic_improve` to its own output can produce
fresh corrections and keep rewriting the text: input `"u"` improves to
`"You."`, and a second application improves that to `"Yoyou."`, again with
a correction suggestion — so convergence within two passes does not hold. -/
theorem improve_second_pass_diverges :
    basic_improve "u" = ("You.", ["Consider using 'you' instead of 'u'."]) ∧
    basic_improve "You." = ("Yoyou.", ["Consider using 'you' instead of 'u'."]) := by
  decide

/-- C3: `basic_improve ""` does not return an empty suggestion list: the
final text `""` equals the stripped original `""`, so the no-changes
encouragement is appended. -/
theorem improve_empty_cex : (basic_improve "").2 ≠ [] := by decide

/-- C3 (amended): `basic_improve ""` returns the empty improved string —
the capitalisation, punctuation and interrogative steps all skip — together
with the single encouragement suggestion produced by the no-changes
branch. -/
theorem improve_empty :
    basic_improve "" =
      ("", ["Great job! Your sentence looks good. Try to add more detail."]) := by
  decide

/-- C5: `basic_improve "i dont know"` fixes `i` and `dont` in dictionary
order and returns `"I don't know."` with exactly those two correction
suggestions. -/
theorem improve_i_dont_know :
    basic_improve "i dont know" =
      ("I don't know.",
       ["Consider using 'I' instead of 'i'.",
        "Consider using 'don't' instead of 'dont'."]) := by decide

/-- C4: levels other than `"beginner"` and `"advanced"` — including
unrecognized values such as `"expert"` — do not get template A: the code
falls to the generic third template, contradicting the claim that any
unrecognized value yields template A. -/
theorem tutor_level_cex :
    (tutor "hello" (some "expert") 0).reply =
      "Nice! You can say: 'Hello.'. Keep practicing your rhythm and pronunciation." ∧
    (tutor "hello" (some "expert") 0).reply ≠ (tutor "hello" (some "beginner") 0).reply := by
  decide

/-- C4 (amended): exactly level `"beginner"` (the schema default) yields
template A quoting the original and improved text; exactly `"advanced"`
yields template B built from the improved text only; every other value,
`"intermediate"` and unrecognized values alike, yields the third generic
template. -/
theorem tutor_reply_templates (msg : String) (level : Option String) (k : Nat)
    (h : String.mk (pyStrip msg.data) ≠ "") :
    (level = some "beginner" →
      (tutor msg level k).reply =
        "You said: '" ++ String.mk (pyStrip msg.data) ++ "'. Here is a clearer version: '" ++
          (basic_improve (String.mk (pyStrip msg.data))).1 ++
          "'. Well done! Try to use full sentences and simple tenses.") ∧
    (level = some "advanced" →
      (tutor msg level k).reply =
        "Your idea is good. A more natural phrasing is: '" ++
          (basic_improve (String.mk (pyStrip msg.data))).1 ++
          "'. Consider adding specific details and varied vocabulary.") ∧
    (level ≠ some "beginner" → level ≠ some "advanced" →
      (tutor msg level k).reply =
        "Nice! You can say: '" ++ (basic_improve (String.mk (pyStrip msg.data))).1 ++
          "'. Keep practicing your rhythm and pronunciation.") := by
  refine ⟨?_, ?_, ?_⟩
  · intro hl
    simp [tutor, tutorWith, h, hl]
  · intro hl
    simp [tutor, tutorWith, h, hl]
  · intro hb ha
    simp [tutor, tutorWith, h, hb, ha]

/-- Witness for the amended C4 theorem at message `"hi"` and level
`"advanced"`. -/
theorem tutor_reply_templates_witness :
    String.mk (pyStrip ("hi").data) ≠ "" ∧
    (((some "advanced" : Option String) = some "beginner" →
      (tutor "hi" (some "advanced") 1).reply =
        "You said: '" ++ String.mk (pyStrip ("hi").data) ++ "'. Here is a clearer version: '" ++
          (basic_improve (String.mk (pyStrip ("hi").data))).1 ++
          "'. Well done! Try to use full sentences and simple tenses.") ∧
    ((some "advanced" : Option String) = some "advanced" →
      (tutor "hi" (some "advanced") 1).reply =
        "Your idea is good. A more natural phrasing is: '" ++
          (basic_improve (String.mk (pyStrip ("hi").data))).1 ++
          "'. Consider adding specific details and varied vocabulary.") ∧
    ((some "advanced" : Option String) ≠ some "beginner" →
      (some "advanced" : Option String) ≠ some "advanced" →
      (tutor "hi" (some "advanced") 1).reply =
        "Nice! You can say: '" ++ (basic_improve (String.mk (pyStrip ("hi").data))).1 ++
          "'. Keep practicing your rhythm and pronunciation.")) :=
  ⟨by decide, tutor_reply_templates "hi" (some "advanced") 1 (by decide)⟩

/-- C6: when the stripped message is empty, the tutor endpoint returns the
fixed encouraging response for every level and never consults the
improvement function: the result is the same for any two improvement
functions. -/
theorem tutor_empty_message (f g : String → String × List String)
    (msg : String) (level : Option String) (k : Nat)
    (h : String.mk (pyStrip msg.data) = "") :
    tutorWith f msg level k = tutorWith g msg level k ∧
    tutorWith f msg level k =
      { reply := "I didn't hear anything. Try saying a simple sentence about your day.",
        suggestions := ["Speak slowly and clearly.", "Start with: 'Today I ...'"],
        prompt := some "Say: 'Today I woke up early and ...'" } := by
  constructor <;> simp [tutorWith, h]

/-- Witness for the C6 theorem at whitespace-only message and level
`"advanced"`. -/
theorem tutor_empty_message_witness :
    String.mk (pyStrip ("   ").data) = "" ∧
    (tutorWith basic_improve "   " (some "advanced") 3 =
       tutorWith idImprove "   " (some "advanced") 3 ∧
     tutorWith basic_improve "   " (some "advanced") 3 =
      { reply := "I didn't hear anything. Try saying a simple sentence about your day.",
        suggestions := ["Speak slowly and clearly.", "Start with: 'Today I ...'"],
        prompt := some "Say: 'Today I woke up early and ...'" }) :=
  ⟨by decide, tutor_empty_message basic_improve idImprove "   " (some "advanced") 3 (by decide)⟩

/-- C7: a non-empty input whose lowercased stripped form matches no
dictionary key, that does not start with an interrogative lead word, that
already ends in terminal punctuation, and whose capitalization is already
the code's normal form (capitalising the lowercased text reproduces it),
gets exactly the single encouragement suggestion. -/
theorem improve_encouragement_only (text : String)
    (h1 : pyStrip text.data ≠ [])
    (h2 : ∀ pr ∈ COMMON_CORRECTIONS,
      containsSub pr.1 ((pyStrip text.data).map Char.toLower) = false)
    (h3 : startsWithAny ((pyStrip text.data).map Char.toLower) = false)
    (h4 : lastTerm (pyStrip text.data) = true)
    (h5 : capFirst ((pyStrip text.data).map Char.toLower) = pyStrip text.data) :
    (basic_improve text).2 = [goodJob] := by
  have hrun : runCorrections COMMON_CORRECTIONS ((pyStrip text.data).map Char.toLower) [] =
      ((pyStrip text.data).map Char.toLower, []) :=
    runCorrections_no_match _ _ _ h2
  have hres1 : (runCorrections COMMON_CORRECTIONS
      ((pyStrip text.data).map Char.toLower) []).1 = (pyStrip text.data).map Char.toLower := by
    rw [hrun]
  have hres2 : (runCorrections COMMON_CORRECTIONS
      ((pyStrip text.data).map Char.toLower) []).2 = ([] : List String) := by
    rw [hrun]
  have hadd : addPeriod (pyStrip text.data) = pyStrip text.data := by
    simp [addPeriod, h4]
  have hq : questionize (pyStrip text.data) = pyStrip text.data := by
    rw [questionize, if_neg]
    intro hcon
    rw [h3] at hcon
    exact absurd hcon.1 (by simp)
  have hbi : (basic_improve text).2 =
      (if questionize (addPeriod (capFirst (runCorrections COMMON_CORRECTIONS
            ((pyStrip text.data).map Char.toLower) []).1)) = pyStrip text.data
       then (runCorrections COMMON_CORRECTIONS
            ((pyStrip text.data).map Char.toLower) []).2 ++ [goodJob]
       else (runCorrections COMMON_CORRECTIONS
            ((pyStrip text.data).map Char.toLower) []).2) := rfl
  rw [hbi, hres1, hres2, h5, hadd, hq, if_pos rfl]
  simp

/-- Witness for the C7 theorem at input `"Hello."`. -/
theorem improve_encouragement_only_witness :
    pyStrip ("Hello.").data ≠ [] ∧
    (basic_improve "Hello.").2 = [goodJob] :=
  ⟨by decide, improve_encouragement_only "Hello." (by decide) (by decide) (by decide)
    (by decide) (by decide)⟩

/-- C8: for a non-empty stripped message the tutor response's suggestions
are the improvement suggestions when those are non-empty and the single
fallback encouragement otherwise; in either case they are non-empty. -/
theorem tutor_suggestions_nonempty (msg : String) (level : Option String) (k : Nat)
    (h : String.mk (pyStrip msg.data) ≠ "") :
    (tutor msg level k).suggestions =
      (if (basic_improve (String.mk (pyStrip msg.data))).2 = []
       then ["Great effort! Add one more sentence to continue."]
       else (basic_improve (String.mk (pyStrip msg.data))).2) ∧
    (tutor msg level k).suggestions ≠ [] := by
  have h1 : (tutor msg level k).suggestions =
      (if (basic_improve (String.mk (pyStrip msg.data))).2 = []
       then ["Great effort! Add one more sentence to continue."]
       else (basic_improve (String.mk (pyStrip msg.data))).2) := by
    simp [tutor, tutorWith, h]
  refine ⟨h1, ?_⟩
  rw [h1]
  by_cases h2 : (basic_improve (String.mk (pyStrip msg.data))).2 = []
  · simp [h2]
  · simp [h2]

/-- Witness for the C8 theorem at message `"hello"`. -/
theorem tutor_suggestions_nonempty_witness :
    String.mk (pyStrip ("hello").data) ≠ "" ∧
    ((tutor "hello" none 0).suggestions =
      (if (basic_improve (String.mk (pyStrip ("hello").data))).2 = []
       then ["Great effort! Add one more sentence to continue."]
       else (basic_improve (String.mk (pyStrip ("hello").data))).2) ∧
     (tutor "hello" none 0).suggestions ≠ []) :=
  ⟨by decide, tutor_suggestions_nonempty "hello" none 0 (by decide)⟩

/-- A database handle whose collection listing raises, used to witness the
error-truncation path of `/test`. -/
def dbErrHandle : DbHandle :=
  { name := none, list_collection_names := Except.error "E" }

/-- C9: the environment variables are not reported by presence only:
`DATABASE_URL` present but set to the empty string is falsy for
`os.getenv` truthiness and reported `"❌ Not Set"`, while a non-empty
value is reported `"✅ Set"` — two environments agreeing on presence
yield different responses. -/
theorem test_database_env_cex :
    (some "" : Option String).isSome = (some "postgres" : Option String).isSome ∧
    test_database DbImport.importErr (some "") none ≠
      test_database DbImport.importErr (some "postgres") none := by
  decide

/-- C9 (amended): the `/test` handler is a total function of the probe
outcome and environment: `collections` never exceeds 10 names, a listing
failure is reported as the fixed prefix plus the error truncated to 50
characters, the environment report is `"✅ Set"` exactly when the variable
is truthy (present and non-empty), and the response depends on the two
environment variables only through that truthiness — never through any
other part of their values. -/
theorem test_database_props (imp : DbImport) (db : DbHandle) (e : String)
    (u1 n1 u2 n2 : Option String)
    (hu : pyTruthy u1 = pyTruthy u2) (hn : pyTruthy n1 = pyTruthy n2) :
    (test_database imp u1 n1).collections.length ≤ 10 ∧
    ((imp = DbImport.ok (some db) ∧ db.list_collection_names = Except.error e) →
      (test_database imp u1 n1).database = "⚠️  Connected but Error: " ++ pyTake e 50 ∧
      (pyTake e 50).length ≤ 50) ∧
    (test_database imp u1 n1).database_url =
      some (if pyTruthy u1 then "✅ Set" else "❌ Not Set") ∧
    test_database imp u1 n1 = test_database imp u2 n2 := by
  refine ⟨?_, ?_, rfl, ?_⟩
  · cases imp with
    | importErr => simp [test_database]
    | otherErr e' => simp [test_database]
    | ok o =>
      cases o with
      | none => simp [test_database]
      | some d =>
        cases hl : d.list_collection_names with
        | ok cols =>
          simp only [test_database, hl, List.length_take]
          exact min_le_left _ _
        | error e' => simp [test_database, hl]
  · rintro ⟨rfl, h2⟩
    constructor
    · simp [test_database, h2]
    · have hlen : (pyTake e 50).length = (e.data.take 50).length := rfl
      rw [hlen, List.length_take]
      exact min_le_left _ _
  · simp only [test_database]
    rw [hu, hn]

/-- Witness for the amended C9 theorem: a handle whose listing raises, and
two environments agreeing on variable truthiness but not on values. -/
theorem test_database_props_witness :
    pyTruthy (some "u") = pyTruthy (some "v") ∧
    pyTruthy (none : Option String) = pyTruthy (none : Option String) ∧
    ((test_database (DbImport.ok (some dbErrHandle)) (some "u") none).collections.length ≤ 10 ∧
     ((DbImport.ok (some dbErrHandle) = DbImport.ok (some dbErrHandle) ∧
         dbErrHandle.list_collection_names = Except.error "E") →
       (test_database (DbImport.ok (some dbErrHandle)) (some "u") none).database =
         "⚠️  Connected but Error: " ++ pyTake "E" 50 ∧
       (pyTake "E" 50).length ≤ 50) ∧
     (test_database (DbImport.ok (some dbErrHandle)) (some "u") none).database_url =
       some (if pyTruthy (some "u") then "✅ Set" else "❌ Not Set") ∧
     test_database (DbImport.ok (some dbErrHandle)) (some "u") none =
       test_database (DbImport.ok (some dbErrHandle)) (some "v") none) :=
  ⟨by decide, by decide,
   test_database_props (DbImport.ok (some dbErrHandle)) dbErrHandle "E"
     (some "u") none (some "v") none (by decide) (by decide)⟩

/-- C10: for every input that is non-empty after stripping, the improved
string is non-empty and ends in `'.'`, `'?'` or `'!'`. -/
theorem improve_terminal_punct (text : String) (h : pyStrip text.data ≠ []) :
    (basic_improve text).1 ≠ "" ∧ lastTerm (basic_improve text).1.data = true := by
  have hlow : (pyStrip text.data).map Char.toLower ≠ [] := by
    simpa using h
  have hres : (runCorrections COMMON_CORRECTIONS
      ((pyStrip text.data).map Char.toLower) []).1 ≠ [] :=
    runCorrections_ne_nil _ _ _ hlow (by decide)
  have hcap := capFirst_ne_nil _ hres
  have hadd := addPeriod_spec _ hcap
  have hq := questionize_spec _ hadd.1 hadd.2
  have hdata : (basic_improve text).1.data =
      questionize (addPeriod (capFirst (runCorrections COMMON_CORRECTIONS
        ((pyStrip text.data).map Char.toLower) []).1)) := rfl
  constructor
  · intro hc
    apply hq.1
    rw [← hdata, hc]
  · rw [hdata]
    exact hq.2

/-- Witness for the C10 theorem at input `"hello"`. -/
theorem improve_terminal_punct_witness :
    pyStrip ("hello").data ≠ [] ∧
    ((basic_improve "hello").1 ≠ "" ∧ lastTerm (basic_improve "hello").1.data = true) :=
  ⟨by decide, improve_terminal_punct "hello" (by decide)⟩
